import Mathlib

/-!
Verification development for the NexGen logistics analytics pipeline
(`nexgen-logistics-app.py`).

Shallow embedding conventions:
* A table is a `List Row`; `Row` is one row of the integrated order-fact
  table produced by `load_data` (orders left-joined with delivery, cost,
  route and feedback data).  A pandas null/`NaN`/`NaT` cell is `none`.
* Dates are represented by integers (days); only their ordering matters.
* Money, ratings and rates are rationals (`ℚ`), since the source only
  adds, divides and compares them.
* Derived columns (`Total_Cost`, `Delivery_Delay_Days`, `On_Time`) are
  functions of `Row`: in the source they are functionally determined by
  the other columns of the same row, so a column and a function on rows
  are interchangeable.
* A pandas float that is `NaN` is modelled as `none` of `Option ℚ`;
  arithmetic with a `none` operand yields `none` (NaN propagation), and
  any `<`/`>` comparison against a missing value is `false`, exactly as
  NaN comparisons evaluate in pandas boolean indexing.
-/

namespace NexGen

/-- One row of the integrated order table built in `load_data`
(lines 72-84 of the source): order attributes joined with delivery,
cost, route and feedback attributes.  Every auxiliary field is an
`Option` because the joins are left-outer joins, so a missing match
leaves nulls. -/
structure Row where
  Order_ID : String := ""
  Order_Date : Option Int := none
  Carrier : Option String := none
  Priority : Option String := none
  Customer_Segment : Option String := none
  Delivery_Status : Option String := none
  Promised_Delivery_Days : Option Int := none
  Actual_Delivery_Days : Option Int := none
  Fuel_Cost : Option ℚ := none
  Labor_Cost : Option ℚ := none
  Vehicle_Maintenance : Option ℚ := none
  Insurance : Option ℚ := none
  Packaging_Cost : Option ℚ := none
  Technology_Platform_Fee : Option ℚ := none
  Other_Overhead : Option ℚ := none
  Customer_Rating : Option ℚ := none
  deriving DecidableEq

/-- Pandas addition of two possibly-NaN floats: NaN propagates. -/
def nanAdd (a b : Option ℚ) : Option ℚ :=
  match a, b with
  | some x, some y => some (x + y)
  | _, _ => none

/-- Pandas subtraction of two possibly-null integer columns. -/
def nanSub (a b : Option Int) : Option Int :=
  match a, b with
  | some x, some y => some (x - y)
  | _, _ => none

/-- `Total_Cost` derived column, source lines 78-81:
`Fuel_Cost + Labor_Cost + Vehicle_Maintenance + Insurance +
Packaging_Cost + Technology_Platform_Fee + Other_Overhead`, with pandas
NaN propagation (a missing component makes the sum NaN). -/
def totalCost (r : Row) : Option ℚ :=
  nanAdd (nanAdd (nanAdd (nanAdd (nanAdd (nanAdd r.Fuel_Cost r.Labor_Cost)
    r.Vehicle_Maintenance) r.Insurance) r.Packaging_Cost)
    r.Technology_Platform_Fee) r.Other_Overhead

/-- `Delivery_Delay_Days` derived column, source line 83:
`Actual_Delivery_Days - Promised_Delivery_Days`. -/
def deliveryDelayDays (r : Row) : Option Int :=
  nanSub r.Actual_Delivery_Days r.Promised_Delivery_Days

/-- `On_Time` derived column, source line 84:
`main_df['Delivery_Status'] == 'On-Time'`.  In pandas a null status
compares unequal to the string, giving `False`. -/
def onTime (r : Row) : Bool :=
  r.Delivery_Status == some "On-Time"

/-- Pandas `Series.mean()` with the default `skipna=True`, applied to the
non-null values of a column: the arithmetic mean, or NaN (`none`) when
there are no non-null values. -/
def meanOpt (xs : List ℚ) : Option ℚ :=
  if xs = [] then none else some (xs.sum / (xs.length : ℚ))

/-- The record returned by `create_kpi_metrics` for a non-empty table
(source lines 103-109).  `avg_rating` and `avg_cost` are `Option ℚ`
because `Series.mean()` yields NaN when the column holds no non-null
value. -/
structure KPISnapshot where
  total_orders : Nat
  on_time_rate : ℚ
  avg_rating : Option ℚ
  avg_cost : Option ℚ
  severely_delayed_rate : ℚ
  deriving DecidableEq

/-- `create_kpi_metrics` (source lines 92-109).  For `df.empty` the
source returns the empty dict `{}` — a record with none of the KPI
fields — modelled as `none`.  Otherwise:
`total_orders = len(df)`,
`on_time_rate = df['On_Time'].sum() / total_orders * 100`,
`avg_rating = df['Customer_Rating'].mean()`,
`avg_cost = df['Total_Cost'].mean()`,
`severely_delayed_rate = (df['Delivery_Status'] == 'Severely-Delayed').sum() / total_orders * 100`.
The integrated table always has the `Customer_Rating` and `Total_Cost`
columns (they are created by the merges and line 78), so the
column-existence fallbacks on lines 99-100 never fire for it. -/
def create_kpi_metrics (df : List Row) : Option KPISnapshot :=
  if df.isEmpty then none
  else
    some
      { total_orders := df.length
        on_time_rate := ((df.countP fun r => onTime r : Nat) : ℚ) / (df.length : ℚ) * 100
        avg_rating := meanOpt (df.filterMap Row.Customer_Rating)
        avg_cost := meanOpt (df.filterMap totalCost)
        severely_delayed_rate :=
          ((df.countP fun r => r.Delivery_Status == some "Severely-Delayed" : Nat) : ℚ)
            / (df.length : ℚ) * 100 }

/-- The sidebar filter state of `main` (source lines 126-150): the
date-range widget value (a list of endpoints; the widget can
transiently hold a single endpoint) and the three multiselect
accepted-sets.  Accepted-set elements are `Option String` because
pandas `isin` can match a null cell when the selected options include a
null (the `Priority`/`Customer_Segment` options are taken with
`.unique()`, without `dropna`). -/
structure FilterSpec where
  date_range : List Int := []
  carriers : List (Option String) := []
  priorities : List (Option String) := []
  segments : List (Option String) := []
  deriving DecidableEq

/-- The filter block of `main` (source lines 135-158), applied in
source order: the date filter only when the range has exactly two
endpoints (line 135), then each categorical filter only when its
accepted list is non-empty (Python truthiness of the list, lines
153-157).  A null `Order_Date` fails both NaT comparisons, so it is
dropped by an active date filter. -/
def applyFilters (spec : FilterSpec) (df : List Row) : List Row :=
  let df1 :=
    if spec.date_range.length = 2 then
      df.filter fun r =>
        match r.Order_Date with
        | some d => decide (spec.date_range.getD 0 0 ≤ d ∧ d ≤ spec.date_range.getD 1 0)
        | none => false
    else df
  let df2 :=
    if spec.carriers = [] then df1
    else df1.filter fun r => decide (r.Carrier ∈ spec.carriers)
  let df3 :=
    if spec.priorities = [] then df2
    else df2.filter fun r => decide (r.Priority ∈ spec.priorities)
  if spec.segments = [] then df3
  else df3.filter fun r => decide (r.Customer_Segment ∈ spec.segments)

/-- Specification-side row predicate: the conjunction of the four
active filter predicates, where an inactive dimension (empty accepted
set, or a date range without exactly two endpoints) contributes
`true`.  Written from the Filter Engine contract of the specification,
to be compared with the sequential `applyFilters` of the source. -/
def rowPasses (spec : FilterSpec) (r : Row) : Bool :=
  (if spec.date_range.length = 2 then
      match r.Order_Date with
      | some d => decide (spec.date_range.getD 0 0 ≤ d ∧ d ≤ spec.date_range.getD 1 0)
      | none => false
    else true)
  && (spec.carriers = [] || decide (r.Carrier ∈ spec.carriers))
  && (spec.priorities = [] || decide (r.Priority ∈ spec.priorities))
  && (spec.segments = [] || decide (r.Customer_Segment ∈ spec.segments))

/-- Insight severity tag (`'type'` key of the dicts built in
source lines 404-431). -/
inductive InsightType
  | warning
  | info
  deriving DecidableEq

/-- One insight record of the rule engine (source lines 404-431).
`value` is the computed number interpolated into the `description`
f-string of the corresponding rule: the measured on-time rate for rule
1, the count of high-cost rows for rule 2, the count of low-rated rows
for rule 3.  The fixed surrounding text and the `recommendation` are
constants and are not modelled. -/
structure Insight where
  itype : InsightType
  title : String
  value : ℚ
  deriving DecidableEq

/-- Pandas `Series.quantile(0.9)` with the default linear
interpolation, over the non-null values `xs` of a column: with the
sorted values `s` and `h = 0.9 * (n - 1)`, the result is
`s[⌊h⌋] + (h - ⌊h⌋) * (s[⌊h⌋ + 1] - s[⌊h⌋])`.  An empty `xs` (an
all-null column) gives NaN, modelled `none`. -/
def quantile90 (xs : List ℚ) : Option ℚ :=
  if xs = [] then none
  else
    let s := List.insertionSort (· ≤ ·) xs
    let n := s.length
    let i := 9 * (n - 1) / 10
    let frac : ℚ := 9 * ((n : ℚ) - 1) / 10 - (i : ℚ)
    let lo := s.getD i 0
    let hi := s.getD (i + 1) lo
    some (lo + frac * (hi - lo))

/-- Count of rows with `Total_Cost` strictly above `q`
(`df[df['Total_Cost'] > q]`, source line 413); a row with NaN
`Total_Cost` never satisfies the comparison. -/
def highCostCount (df : List Row) (q : ℚ) : Nat :=
  df.countP fun r =>
    match totalCost r with
    | some tc => decide (q < tc)
    | none => false

/-- Rule 1 (source lines 402-409): the on-time rate of the current
table, `main_df['On_Time'].sum() / len(main_df) * 100`, compared
against the fixed threshold 75. -/
def rule1Insights (df : List Row) : List Insight :=
  let on_time_rate : ℚ := ((df.countP fun r => onTime r : Nat) : ℚ) / (df.length : ℚ) * 100
  if on_time_rate < 75 then
    [{ itype := .warning, title := "Delivery Performance Issue", value := on_time_rate }]
  else []

/-- Rule 2 (source lines 412-420): rows whose `Total_Cost` exceeds the
90th percentile of the same table's `Total_Cost`; fires when the
selection is non-empty.  On an all-null `Total_Cost` column the
quantile is NaN (`none`), the comparison selects no rows, and the rule
emits nothing. -/
def rule2Insights (df : List Row) : List Insight :=
  match quantile90 (df.filterMap totalCost) with
  | none => []
  | some q =>
    if highCostCount df q ≠ 0 then
      [{ itype := .info, title := "Cost Optimization Opportunity",
         value := (highCostCount df q : ℚ) }]
    else []

/-- Rule 3 (source lines 423-431): rows with `Customer_Rating ≤ 2`
(a null rating never satisfies the comparison). -/
def rule3Insights (df : List Row) : List Insight :=
  let c := df.countP fun r =>
    match r.Customer_Rating with
    | some cr => decide (cr ≤ 2)
    | none => false
  if c ≠ 0 then
    [{ itype := .warning, title := "Customer Satisfaction Risk", value := (c : ℚ) }]
  else []

/-- The insight rule engine of `main` (source lines 398-431): starting
from an empty `insights` list, each of the three rules appends its
finding under its own guard, all inside the `if not main_df.empty`
check of line 400; the insights are therefore exactly the
concatenation of the three rules' emissions, and an empty table emits
nothing. -/
def generateInsights (df : List Row) : List Insight :=
  if df.isEmpty then []
  else rule1Insights df ++ rule2Insights df ++ rule3Insights df

/-! ### Example rows and tables used by witnesses and counterexamples -/

/-- A row in which every joined field is null: the left joins found no
match in any auxiliary dataset. -/
def rowAllNull : Row := {}

/-- Cost components 100, 50, 20, 10, 5, 5, 10 (the worked example of the
specification), delivered on time with rating 5. -/
def rowFullCosts : Row :=
  { Delivery_Status := some "On-Time", Customer_Rating := some 5,
    Fuel_Cost := some 100, Labor_Cost := some 50, Vehicle_Maintenance := some 20,
    Insurance := some 10, Packaging_Cost := some 5, Technology_Platform_Fee := some 5,
    Other_Overhead := some 10 }

/-- A row with `Labor_Cost` missing and every other component present. -/
def rowMissingLabor : Row :=
  { Fuel_Cost := some 100, Vehicle_Maintenance := some 20,
    Insurance := some 10, Packaging_Cost := some 5, Technology_Platform_Fee := some 5,
    Other_Overhead := some 10 }

/-- Delivered two days early, yet with status `"Delayed"`. -/
def rowEarlyButDelayed : Row :=
  { Delivery_Status := some "Delayed", Promised_Delivery_Days := some 5,
    Actual_Delivery_Days := some 3 }

/-- The KPI record of the one-row table `[rowAllNull]`. -/
def kpiAllNull : KPISnapshot :=
  { total_orders := 1, on_time_rate := 0, avg_rating := none, avg_cost := none,
    severely_delayed_rate := 0 }

/-- Componentwise "at most as permissive" order on filter
specifications: same date range, each accepted set a subset of the
other's, and a dimension left unfiltered (empty set, hence
pass-through) on the left only if it is also unfiltered on the
right. -/
def SpecSubset (A B : FilterSpec) : Prop :=
  A.date_range = B.date_range ∧
  A.carriers ⊆ B.carriers ∧ (A.carriers = [] → B.carriers = []) ∧
  A.priorities ⊆ B.priorities ∧ (A.priorities = [] → B.priorities = []) ∧
  A.segments ⊆ B.segments ∧ (A.segments = [] → B.segments = [])

/-- Four orders with statuses On-Time, On-Time, Delayed,
Severely-Delayed: the on-time rate is 50, below 75. -/
def exStatusTable : List Row :=
  [{ Delivery_Status := some "On-Time" }, { Delivery_Status := some "On-Time" },
   rowEarlyButDelayed, { Delivery_Status := some "Severely-Delayed" }]

/-- The everything-empty filter specification of the monotonicity
counterexample: every dimension inactive, hence pass-through. -/
def cexSpecA : FilterSpec := {}

/-- A specification accepting only carrier `X`. -/
def cexSpecB : FilterSpec := { carriers := [some "X"] }

/-- A one-row table whose carrier is `Y`. -/
def cexTable : List Row := [{ Carrier := some "Y" }]

/-- A specification accepting carrier `X` only. -/
def wSpecA : FilterSpec := { carriers := [some "X"] }

/-- A specification accepting carriers `X` and `Y`. -/
def wSpecB : FilterSpec := { carriers := [some "X", some "Y"] }

/-- A two-row table with carriers `Y` and `X`. -/
def wTable : List Row := [{ Carrier := some "Y" }, { Carrier := some "X" }]

/-! ### Helper lemmas -/

lemma nanAdd_none_left (b : Option ℚ) : nanAdd none b = none := by
  cases b <;> rfl

lemma nanAdd_none_right (a : Option ℚ) : nanAdd a none = none := by
  cases a <;> rfl

lemma nanAdd_some_some (x y : ℚ) : nanAdd (some x) (some y) = some (x + y) := rfl

lemma countP_add_countP_le_length {α : Type} (p q : α → Bool) (l : List α)
    (h : ∀ a, p a = true → q a = true → False) :
    l.countP p + l.countP q ≤ l.length := by
  induction l with
  | nil => simp
  | cons a t ih =>
    rw [List.countP_cons, List.countP_cons, List.length_cons]
    by_cases hp : p a = true
    · have hq : q a = false := by
        cases hqa : q a
        · rfl
        · exact (h a hp hqa).elim
      simp only [hp, hq, if_true, Bool.false_eq_true, if_false]
      omega
    · have hp' : p a = false := by
        cases hpa : p a
        · rfl
        · exact (hp hpa).elim
      by_cases hq : q a = true <;>
        simp only [hp', hq, if_true, Bool.false_eq_true, if_false] <;> omega

lemma rate_nonneg (c n : Nat) : 0 ≤ (c : ℚ) / (n : ℚ) * 100 := by positivity

lemma rate_le_100 (c n : Nat) (hc : c ≤ n) (hn : 0 < n) :
    (c : ℚ) / (n : ℚ) * 100 ≤ 100 := by
  have hn' : (0 : ℚ) < (n : ℚ) := by exact_mod_cast hn
  have h1 : (c : ℚ) / (n : ℚ) ≤ 1 := by
    rw [div_le_one hn']
    exact_mod_cast hc
  calc (c : ℚ) / (n : ℚ) * 100 ≤ 1 * 100 :=
        mul_le_mul_of_nonneg_right h1 (by norm_num)
    _ = 100 := by norm_num

/-! ### C1 -/

/-- C1 counterexample.  The claim says an empty table yields a KPI
record with `total_orders = 0` and zero rates.  In the source
(line 94-95) `create_kpi_metrics` returns the empty dict `{}` for an
empty table — a record carrying none of those fields, modelled as
`none` — so no such record is returned. -/
theorem kpi_empty_no_fields_cex :
    create_kpi_metrics ([] : List Row) = none ∧
    ¬ ∃ k : KPISnapshot, create_kpi_metrics ([] : List Row) = some k ∧
        k.total_orders = 0 ∧ k.on_time_rate = 0 ∧ k.severely_delayed_rate = 0 := by
  refine ⟨rfl, ?_⟩
  rintro ⟨k, hk, -⟩
  rw [show create_kpi_metrics ([] : List Row) = none from rfl] at hk
  cases hk

/-- C1 amended.  For an empty input table the KPI computation does not
fail, but it returns the empty record `{}` containing no fields at all
(modelled `none`); it returns a populated record exactly for non-empty
tables. -/
theorem kpi_empty_returns_empty_record (df : List Row) :
    create_kpi_metrics df = none ↔ df = [] := by
  rw [create_kpi_metrics]
  by_cases h : df.isEmpty
  · simp [h, List.isEmpty_iff.mp h]
  · have h' : df ≠ [] := fun hd => h (by simp [hd])
    simp [h, h']

/-- C1 witness: the amended theorem applied to the empty table and to a
concrete one-row table. -/
theorem kpi_empty_returns_empty_record_witness :
    create_kpi_metrics ([] : List Row) = none ∧
    create_kpi_metrics [rowFullCosts] ≠ none :=
  ⟨(kpi_empty_returns_empty_record []).mpr rfl,
   fun h => by simpa using (kpi_empty_returns_empty_record [rowFullCosts]).mp h⟩

/-! ### C2 -/

/-- C2: for every row with all seven cost components present,
`Total_Cost` is exactly their sum; a row with any missing component has
a null (NaN) `Total_Cost`, never one computed with the missing
component as zero. -/
theorem total_cost_additivity_null_propagation (r : Row) :
    (∀ f l m i p t o : ℚ,
        r.Fuel_Cost = some f → r.Labor_Cost = some l →
        r.Vehicle_Maintenance = some m → r.Insurance = some i →
        r.Packaging_Cost = some p → r.Technology_Platform_Fee = some t →
        r.Other_Overhead = some o →
        totalCost r = some (f + l + m + i + p + t + o)) ∧
    ((r.Fuel_Cost = none ∨ r.Labor_Cost = none ∨ r.Vehicle_Maintenance = none ∨
        r.Insurance = none ∨ r.Packaging_Cost = none ∨
        r.Technology_Platform_Fee = none ∨ r.Other_Overhead = none) →
      totalCost r = none) := by
  constructor
  · intro f l m i p t o hf hl hm hi hp ht ho
    rw [totalCost, hf, hl, hm, hi, hp, ht, ho]
    rfl
  · rintro (h | h | h | h | h | h | h) <;>
      simp [totalCost, h, nanAdd_none_left, nanAdd_none_right, nanAdd]

/-- C2 witness: the specification's worked example 100 + 50 + 20 + 10 +
5 + 5 + 10 = 200, and a row missing `Labor_Cost` whose `Total_Cost` is
null. -/
theorem total_cost_additivity_null_propagation_witness :
    totalCost rowFullCosts = some 200 ∧ totalCost rowMissingLabor = none := by
  constructor
  · have h := (total_cost_additivity_null_propagation rowFullCosts).1
      100 50 20 10 5 5 10 rfl rfl rfl rfl rfl rfl rfl
    rw [h]
    norm_num
  · exact (total_cost_additivity_null_propagation rowMissingLabor).2 (Or.inr (Or.inl rfl))

/-! ### C3 -/

/-- C3: the derived `On_Time` field is true exactly when
`Delivery_Status` is the string `"On-Time"`, and it depends on nothing
but `Delivery_Status` — in particular not on the sign or value of the
delivery delay. -/
theorem on_time_iff_status_exact (r : Row) :
    (onTime r = true ↔ r.Delivery_Status = some "On-Time") ∧
    (∀ s : Row, r.Delivery_Status = s.Delivery_Status → onTime r = onTime s) := by
  constructor
  · simp [onTime]
  · intro s h
    simp [onTime, h]

/-- C3 witness: a row delivered two days early (`Delivery_Delay_Days =
-2`) but with status `"Delayed"` is not counted on-time. -/
theorem on_time_iff_status_exact_witness :
    deliveryDelayDays rowEarlyButDelayed = some (-2) ∧
    onTime rowEarlyButDelayed = false := by
  constructor
  · rfl
  · have h := (on_time_iff_status_exact rowEarlyButDelayed).1
    simpa [rowEarlyButDelayed] using h

/-! ### C4 -/

/-- C4 counterexample.  The claim says an all-null `Customer_Rating`
(resp. `Total_Cost`) column gives `avg_rating = 0` (resp.
`avg_cost = 0`).  On the one-row table whose row is entirely null,
`Series.mean()` yields NaN (`none`), not `0`: the 0 fallback in the
source (lines 99-100) fires only when the column is absent, and the
integrated table always has both columns. -/
theorem avg_rating_all_null_cex :
    create_kpi_metrics [rowAllNull] = some kpiAllNull ∧
    kpiAllNull.avg_rating ≠ some 0 ∧ kpiAllNull.avg_cost ≠ some 0 := by
  refine ⟨?_, by simp [kpiAllNull], by simp [kpiAllNull]⟩
  rw [create_kpi_metrics]
  simp [rowAllNull, onTime, meanOpt, totalCost, nanAdd, kpiAllNull, List.countP_cons]

/-- C4 amended.  For every non-empty table, `avg_rating` (resp.
`avg_cost`) is the arithmetic mean over the non-null values of the
column when at least one non-null value exists, and is undefined (NaN,
modelled `none`) — not 0 — when the column holds no non-null value. -/
theorem avg_mean_over_nonnull_or_nan (df : List Row) (h : df ≠ []) :
    ∃ k : KPISnapshot, create_kpi_metrics df = some k ∧
      k.avg_rating =
        (if df.filterMap Row.Customer_Rating = [] then none
         else some ((df.filterMap Row.Customer_Rating).sum /
           ((df.filterMap Row.Customer_Rating).length : ℚ))) ∧
      k.avg_cost =
        (if df.filterMap totalCost = [] then none
         else some ((df.filterMap totalCost).sum /
           ((df.filterMap totalCost).length : ℚ))) := by
  rw [create_kpi_metrics, if_neg (by simpa [List.isEmpty_iff] using h)]
  exact ⟨_, rfl, rfl, rfl⟩

/-- C4 witness: the amended theorem at the two-row table
`[rowFullCosts, rowAllNull]` (one rating present, one null). -/
theorem avg_mean_over_nonnull_or_nan_witness :
    ([rowFullCosts, rowAllNull] ≠ ([] : List Row)) ∧
    (∃ k : KPISnapshot, create_kpi_metrics [rowFullCosts, rowAllNull] = some k ∧
      k.avg_rating =
        (if [rowFullCosts, rowAllNull].filterMap Row.Customer_Rating = [] then none
         else some (([rowFullCosts, rowAllNull].filterMap Row.Customer_Rating).sum /
           (([rowFullCosts, rowAllNull].filterMap Row.Customer_Rating).length : ℚ))) ∧
      k.avg_cost =
        (if [rowFullCosts, rowAllNull].filterMap totalCost = [] then none
         else some (([rowFullCosts, rowAllNull].filterMap totalCost).sum /
           (([rowFullCosts, rowAllNull].filterMap totalCost).length : ℚ)))) :=
  ⟨by simp, avg_mean_over_nonnull_or_nan [rowFullCosts, rowAllNull] (by simp)⟩

/-! ### C9 -/

/-- C9: for a table with at least one row, the KPI record exists and
`on_time_rate` is `100 × (count of On_Time rows) / total_orders`,
`severely_delayed_rate` is the analogous quantity for
`Delivery_Status = "Severely-Delayed"`, and both rates lie in
`[0, 100]`. -/
theorem kpi_rate_formulas_and_bounds (df : List Row) (h : df ≠ []) :
    ∃ k : KPISnapshot, create_kpi_metrics df = some k ∧
      k.total_orders = df.length ∧
      k.on_time_rate = ((df.countP fun r => onTime r : Nat) : ℚ) / (df.length : ℚ) * 100 ∧
      k.severely_delayed_rate =
        ((df.countP fun r => r.Delivery_Status == some "Severely-Delayed" : Nat) : ℚ)
          / (df.length : ℚ) * 100 ∧
      0 ≤ k.on_time_rate ∧ k.on_time_rate ≤ 100 ∧
      0 ≤ k.severely_delayed_rate ∧ k.severely_delayed_rate ≤ 100 := by
  have hlen : 0 < df.length := List.length_pos.mpr h
  rw [create_kpi_metrics, if_neg (by simpa [List.isEmpty_iff] using h)]
  refine ⟨_, rfl, rfl, rfl, rfl, rate_nonneg _ _, ?_, rate_nonneg _ _, ?_⟩
  · exact rate_le_100 _ _ (List.countP_le_length _) hlen
  · exact rate_le_100 _ _ (List.countP_le_length _) hlen

/-- C9 witness: the four-row table of the specification's example
(`On-Time`, `On-Time`, `Delayed`, `Severely-Delayed`), instantiating
the theorem. -/
theorem kpi_rate_formulas_and_bounds_witness :
    ([{ Delivery_Status := some "On-Time" }, { Delivery_Status := some "On-Time" },
        rowEarlyButDelayed, { Delivery_Status := some "Severely-Delayed" }] ≠ ([] : List Row)) ∧
    (∃ k : KPISnapshot,
      create_kpi_metrics [{ Delivery_Status := some "On-Time" },
        { Delivery_Status := some "On-Time" }, rowEarlyButDelayed,
        { Delivery_Status := some "Severely-Delayed" }] = some k ∧
      k.total_orders = 4 ∧ k.on_time_rate = 50 ∧ k.severely_delayed_rate = 25) := by
  refine ⟨by simp, ?_⟩
  obtain ⟨k, hk, hn, hot, hsd, -⟩ :=
    kpi_rate_formulas_and_bounds [{ Delivery_Status := some "On-Time" },
      { Delivery_Status := some "On-Time" }, rowEarlyButDelayed,
      { Delivery_Status := some "Severely-Delayed" }] (by simp)
  refine ⟨k, hk, ?_, ?_, ?_⟩
  · simpa using hn
  · have hne1 : ("Severely-Delayed" : String) ≠ "On-Time" := by decide
    have hne2 : ("Delayed" : String) ≠ "On-Time" := by decide
    rw [hot]
    norm_num [List.countP_cons, onTime, rowEarlyButDelayed, hne1, hne2]
  · have hne1 : ("Delayed" : String) ≠ "Severely-Delayed" := by decide
    have hne2 : ("On-Time" : String) ≠ "Severely-Delayed" := by decide
    rw [hsd]
    norm_num [List.countP_cons, rowEarlyButDelayed, hne1, hne2]

/-! ### C10 -/

/-- C10: a row with a null `Delivery_Status` (for example an order the
delivery left join did not match) has `On_Time = false` and satisfies
neither status test; appending such a row to a table grows the
`total_orders` denominator by one while leaving both rate numerators
unchanged; and since no row can satisfy both status tests at once,
`on_time_rate + severely_delayed_rate ≤ 100` whenever the KPI record
is produced. -/
theorem null_status_rates_sum_le_100 :
    (∀ r : Row, r.Delivery_Status = none →
        onTime r = false ∧ (r.Delivery_Status == some "Severely-Delayed") = false) ∧
    (∀ (df : List Row) (r : Row), r.Delivery_Status = none →
        ((df ++ [r]).countP fun x => onTime x) = (df.countP fun x => onTime x) ∧
        ((df ++ [r]).countP fun x => x.Delivery_Status == some "Severely-Delayed") =
          (df.countP fun x => x.Delivery_Status == some "Severely-Delayed") ∧
        (df ++ [r]).length = df.length + 1) ∧
    (∀ (df : List Row) (k : KPISnapshot), create_kpi_metrics df = some k →
        k.on_time_rate + k.severely_delayed_rate ≤ 100) := by
  have hnull : ∀ r : Row, r.Delivery_Status = none →
      onTime r = false ∧ (r.Delivery_Status == some "Severely-Delayed") = false := by
    intro r hr
    constructor
    · simp [onTime, hr]
    · simp [hr]
  refine ⟨hnull, ?_, ?_⟩
  · intro df r hr
    obtain ⟨h1, h2⟩ := hnull r hr
    refine ⟨?_, ?_, by simp⟩
    · rw [List.countP_append]
      simp [List.countP_cons, h1]
    · rw [List.countP_append]
      simp [List.countP_cons, h2]
  · intro df k hk
    rw [create_kpi_metrics] at hk
    by_cases hd : df.isEmpty
    · rw [if_pos hd] at hk
      cases hk
    · rw [if_neg hd] at hk
      have hne : df ≠ [] := fun h0 => hd (by simp [h0])
      have hlen : 0 < df.length := List.length_pos.mpr hne
      have hlen' : (0 : ℚ) < (df.length : ℚ) := by exact_mod_cast hlen
      obtain rfl : _ = k := Option.some.inj hk
      set c1 := df.countP fun r => onTime r with hc1
      set c2 := df.countP fun r => r.Delivery_Status == some "Severely-Delayed" with hc2
      have hdisj : c1 + c2 ≤ df.length := by
        apply countP_add_countP_le_length
        intro a hpa hqa
        have ha1 : a.Delivery_Status = some "On-Time" := by
          simpa [onTime] using hpa
        have ha2 : a.Delivery_Status = some "Severely-Delayed" := by
          simpa using hqa
        rw [ha1] at ha2
        simp at ha2
      show (c1 : ℚ) / (df.length : ℚ) * 100 + (c2 : ℚ) / (df.length : ℚ) * 100 ≤ 100
      have hsum : (c1 : ℚ) / (df.length : ℚ) * 100 + (c2 : ℚ) / (df.length : ℚ) * 100 =
          ((c1 + c2 : Nat) : ℚ) / (df.length : ℚ) * 100 := by
        push_cast
        ring
      rw [hsum]
      exact rate_le_100 _ _ hdisj hlen

/-- C10 witness: the last conjunct applied to the concrete one-row
table `[rowAllNull]`, whose null status row is counted in the
denominator only. -/
theorem null_status_rates_sum_le_100_witness :
    rowAllNull.Delivery_Status = none ∧
    onTime rowAllNull = false ∧
    (kpiAllNull.on_time_rate + kpiAllNull.severely_delayed_rate ≤ 100) := by
  refine ⟨rfl, (null_status_rates_sum_le_100.1 rowAllNull rfl).1, ?_⟩
  have h := null_status_rates_sum_le_100.2.2 [rowAllNull] kpiAllNull
  apply h
  rw [create_kpi_metrics]
  simp [rowAllNull, onTime, meanOpt, totalCost, nanAdd, kpiAllNull, List.countP_cons]

/-! ### C5 and C6: the insight rules -/

lemma rule1_filter_ne (df : List Row) (t : String)
    (ht : t ≠ "Delivery Performance Issue") :
    (rule1Insights df).filter (fun i => decide (i.title = t)) = [] := by
  simp only [rule1Insights]
  split
  · simp [Ne.symm ht]
  · rfl

lemma rule2_filter_ne (df : List Row) (t : String)
    (ht : t ≠ "Cost Optimization Opportunity") :
    (rule2Insights df).filter (fun i => decide (i.title = t)) = [] := by
  rw [rule2Insights]
  cases hq : quantile90 (df.filterMap totalCost) with
  | none => rfl
  | some q =>
    by_cases hc : highCostCount df q ≠ 0
    · simp [hc, Ne.symm ht]
    · simp [hc]

lemma rule3_filter_ne (df : List Row) (t : String)
    (ht : t ≠ "Customer Satisfaction Risk") :
    (rule3Insights df).filter (fun i => decide (i.title = t)) = [] := by
  simp only [rule3Insights]
  split
  · simp [Ne.symm ht]
  · rfl

/-- C5: on every non-empty table the rule engine emits exactly one
warning titled "Delivery Performance Issue", carrying the measured
on-time rate, when that rate is below 75, and emits no insight with
that title when the rate is at least 75. -/
theorem delivery_performance_rule_spec (df : List Row) (h : df ≠ []) :
    (generateInsights df).filter (fun i => decide (i.title = "Delivery Performance Issue")) =
      (if ((df.countP fun r => onTime r : Nat) : ℚ) / (df.length : ℚ) * 100 < 75 then
        [{ itype := InsightType.warning, title := "Delivery Performance Issue",
           value := ((df.countP fun r => onTime r : Nat) : ℚ) / (df.length : ℚ) * 100 }]
      else []) := by
  rw [generateInsights, if_neg (by simpa [List.isEmpty_iff] using h)]
  rw [List.filter_append, List.filter_append,
    rule2_filter_ne df _ (by decide), rule3_filter_ne df _ (by decide),
    List.append_nil, List.append_nil]
  simp only [rule1Insights]
  by_cases hlt :
      ((df.countP fun r => onTime r : Nat) : ℚ) / (df.length : ℚ) * 100 < 75
  · rw [if_pos hlt]
    simp
  · rw [if_neg hlt]
    rfl

/-- C5 witness: the rule-1 theorem applied to the concrete four-row
table whose on-time rate is 50. -/
theorem delivery_performance_rule_spec_witness :
    (exStatusTable ≠ ([] : List Row)) ∧
    (generateInsights exStatusTable).filter
        (fun i => decide (i.title = "Delivery Performance Issue")) =
      (if ((exStatusTable.countP fun r => onTime r : Nat) : ℚ) /
          (exStatusTable.length : ℚ) * 100 < 75 then
        [{ itype := InsightType.warning, title := "Delivery Performance Issue",
           value := ((exStatusTable.countP fun r => onTime r : Nat) : ℚ) /
             (exStatusTable.length : ℚ) * 100 }]
      else []) :=
  ⟨by simp [exStatusTable], delivery_performance_rule_spec exStatusTable (by simp [exStatusTable])⟩

/-- C6: on every non-empty table the rule engine emits exactly one
info insight titled "Cost Optimization Opportunity", carrying the
count of rows whose `Total_Cost` strictly exceeds the
linear-interpolation 90th percentile of the table's non-null
`Total_Cost` values, exactly when at least one such row exists; the
percentile is well-defined (`isSome`) for any table with at least one
non-null `Total_Cost` — in particular with fewer than 10 rows — and on
a table with no non-null `Total_Cost` the evaluation emits nothing
from this rule (and does not fail). -/
theorem cost_optimization_rule_spec (df : List Row) (h : df ≠ []) :
    ((generateInsights df).filter (fun i => decide (i.title = "Cost Optimization Opportunity")) =
      (match quantile90 (df.filterMap totalCost) with
       | none => []
       | some q =>
         if highCostCount df q ≠ 0 then
           [{ itype := InsightType.info, title := "Cost Optimization Opportunity",
              value := (highCostCount df q : ℚ) }]
         else [])) ∧
    (df.filterMap totalCost ≠ [] → (quantile90 (df.filterMap totalCost)).isSome = true) ∧
    (df.filterMap totalCost = [] →
      (generateInsights df).filter
        (fun i => decide (i.title = "Cost Optimization Opportunity")) = []) := by
  have hmain :
      (generateInsights df).filter (fun i => decide (i.title = "Cost Optimization Opportunity")) =
        (match quantile90 (df.filterMap totalCost) with
         | none => []
         | some q =>
           if highCostCount df q ≠ 0 then
             [{ itype := InsightType.info, title := "Cost Optimization Opportunity",
                value := (highCostCount df q : ℚ) }]
           else []) := by
    rw [generateInsights, if_neg (by simpa [List.isEmpty_iff] using h)]
    rw [List.filter_append, List.filter_append,
      rule1_filter_ne df _ (by decide), rule3_filter_ne df _ (by decide),
      List.nil_append, List.append_nil]
    rw [rule2Insights]
    cases hq : quantile90 (df.filterMap totalCost) with
    | none => rfl
    | some q =>
      dsimp only
      by_cases hc : highCostCount df q ≠ 0
      · rw [if_pos hc]
        simp
      · rw [if_neg hc]
        rfl
  refine ⟨hmain, ?_, ?_⟩
  · intro hne
    rw [quantile90, if_neg hne]
    rfl
  · intro hnil
    rw [hmain, hnil]
    rfl

/-- C6 witness: the rule-2 theorem applied to the one-row table
`[rowFullCosts]`, whose single `Total_Cost` of 200 equals its own 90th
percentile, so no row strictly exceeds it. -/
theorem cost_optimization_rule_spec_witness :
    ([rowFullCosts] ≠ ([] : List Row)) ∧
    (((generateInsights [rowFullCosts]).filter
        (fun i => decide (i.title = "Cost Optimization Opportunity")) =
      (match quantile90 ([rowFullCosts].filterMap totalCost) with
       | none => []
       | some q =>
         if highCostCount [rowFullCosts] q ≠ 0 then
           [{ itype := InsightType.info, title := "Cost Optimization Opportunity",
              value := (highCostCount [rowFullCosts] q : ℚ) }]
         else [])) ∧
    ([rowFullCosts].filterMap totalCost ≠ [] →
      (quantile90 ([rowFullCosts].filterMap totalCost)).isSome = true) ∧
    ([rowFullCosts].filterMap totalCost = [] →
      (generateInsights [rowFullCosts]).filter
        (fun i => decide (i.title = "Cost Optimization Opportunity")) = [])) :=
  ⟨by simp, cost_optimization_rule_spec [rowFullCosts] (by simp)⟩

/-! ### C7 and C8: the filter engine -/

lemma ite_filter_eq {c : Prop} [Decidable c] (p : Row → Bool) (l : List Row) :
    (if c then l.filter p else l) = l.filter (fun r => if c then p r else true) := by
  by_cases hc : c
  · rw [if_pos hc]
    exact (List.filter_congr fun r _ => by rw [if_pos hc]).symm
  · rw [if_neg hc]
    exact ((List.filter_congr fun r _ => by rw [if_neg hc]).trans
      (List.filter_true l)).symm

lemma ite_skip_filter_eq {c : Prop} [Decidable c] (p : Row → Bool) (l : List Row) :
    (if c then l else l.filter p) = l.filter (fun r => decide c || p r) := by
  by_cases hc : c
  · rw [if_pos hc]
    exact ((List.filter_congr fun r _ => by simp [hc]).trans (List.filter_true l)).symm
  · rw [if_neg hc]
    exact (List.filter_congr fun r _ => by simp [hc]).symm

lemma applyFilters_eq_rowPasses (spec : FilterSpec) (df : List Row) :
    applyFilters spec df = df.filter (rowPasses spec) := by
  simp only [applyFilters]
  rw [ite_filter_eq, ite_skip_filter_eq, ite_skip_filter_eq, ite_skip_filter_eq,
    List.filter_filter, List.filter_filter, List.filter_filter]
  refine List.filter_congr fun r _ => ?_
  simp only [rowPasses]
  ac_rfl

lemma rowPasses_mono {A B : FilterSpec} (h : SpecSubset A B) (r : Row)
    (hr : rowPasses A r = true) : rowPasses B r = true := by
  obtain ⟨hd, hc, hc0, hp, hp0, hs, hs0⟩ := h
  simp only [rowPasses, Bool.and_eq_true, Bool.or_eq_true, decide_eq_true_eq] at hr ⊢
  obtain ⟨⟨⟨h1, h2⟩, h3⟩, h4⟩ := hr
  refine ⟨⟨⟨hd ▸ h1, ?_⟩, ?_⟩, ?_⟩
  · rcases h2 with h2 | h2
    · exact Or.inl (hc0 h2)
    · exact Or.inr (hc h2)
  · rcases h3 with h3 | h3
    · exact Or.inl (hp0 h3)
    · exact Or.inr (hp h3)
  · rcases h4 with h4 | h4
    · exact Or.inl (hs0 h4)
    · exact Or.inr (hs h4)

/-- C7: the sequential filter block of `main` returns exactly the rows
satisfying the conjunction of the active predicates `rowPasses`, in
which an empty accepted set contributes a vacuously-true disjunct
(pass-through) and a date range without two endpoints contributes
`true` (no date filtering); in particular the all-inactive
specification filters nothing at all. -/
theorem filter_conjunction_spec :
    (∀ (spec : FilterSpec) (df : List Row),
        applyFilters spec df = df.filter (rowPasses spec)) ∧
    (∀ df : List Row, applyFilters ({} : FilterSpec) df = df) := by
  refine ⟨applyFilters_eq_rowPasses, fun df => ?_⟩
  rw [applyFilters_eq_rowPasses]
  exact (List.filter_congr fun r _ => by simp [rowPasses]).trans (List.filter_true df)

/-- C8 counterexample.  The claim's monotonicity fails as stated: with
`A` having an empty carrier set (pass-through) and `B` the carrier set
`{X}`, every accepted set of `A` is a subset of the corresponding set
of `B` and the date ranges agree, yet on a one-row table whose carrier
is `Y`, filtering by `A` keeps 1 row and filtering by `B` keeps 0. -/
theorem filter_monotonic_cex :
    cexSpecA.date_range = cexSpecB.date_range ∧
    cexSpecA.carriers ⊆ cexSpecB.carriers ∧
    cexSpecA.priorities ⊆ cexSpecB.priorities ∧
    cexSpecA.segments ⊆ cexSpecB.segments ∧
    ¬ ((applyFilters cexSpecA cexTable).length ≤
        (applyFilters cexSpecB cexTable).length) := by
  refine ⟨rfl, List.nil_subset _, List.nil_subset _, List.nil_subset _, ?_⟩
  decide

/-- C8 amended.  Filtering is idempotent, and it is monotonic for
specifications ordered by `SpecSubset`: componentwise subset of the
accepted sets with equal date ranges, provided a dimension left
unfiltered (empty accepted set, which the engine treats as
pass-through rather than as the empty selection) in `A` is also
unfiltered in `B`. -/
theorem filter_idempotent_and_monotonic :
    (∀ (spec : FilterSpec) (df : List Row),
        applyFilters spec (applyFilters spec df) = applyFilters spec df) ∧
    (∀ (A B : FilterSpec) (df : List Row), SpecSubset A B →
        (applyFilters A df).length ≤ (applyFilters B df).length) := by
  constructor
  · intro spec df
    rw [applyFilters_eq_rowPasses, applyFilters_eq_rowPasses, List.filter_filter]
    exact List.filter_congr fun r _ => Bool.and_self _
  · intro A B df h
    rw [applyFilters_eq_rowPasses, applyFilters_eq_rowPasses]
    exact (List.monotone_filter_right df fun r hr => rowPasses_mono h r hr).length_le

/-- C8 witness: idempotence and monotonicity at concrete
specifications `{X} ⊆ {X, Y}` on a concrete two-row table. -/
theorem filter_idempotent_and_monotonic_witness :
    SpecSubset wSpecA wSpecB ∧
    applyFilters wSpecA (applyFilters wSpecA wTable) = applyFilters wSpecA wTable ∧
    (applyFilters wSpecA wTable).length ≤ (applyFilters wSpecB wTable).length := by
  have hsub : SpecSubset wSpecA wSpecB := by
    refine ⟨rfl, ?_, fun h => absurd h (by simp [wSpecA]), List.nil_subset _, fun _ => rfl,
      List.nil_subset _, fun _ => rfl⟩
    intro x hx
    rw [List.mem_singleton.mp hx]
    simp [wSpecB]
  exact ⟨hsub, filter_idempotent_and_monotonic.1 wSpecA wTable,
    filter_idempotent_and_monotonic.2 wSpecA wSpecB wTable hsub⟩

end NexGen
